import Mathlib

/-!
Verification of the concurrent slot-filling conversation pipeline.

This file gives a shallow embedding of the sequential logic of the
repository's C++ sources (models/composer.cpp, models/closer.cpp,
controllers/advanced_session_controller_og.cpp,
controllers/advanced_session_controller.cpp, controllers/SessionController.h)
and proves or refutes the specification's claims about them.

Modelling conventions:
- C++ float quality scores are modelled as rationals; the concrete constants
  (0.7, 0.8, 0.5, 0.85, 0.6) are exactly representable and only compared,
  never subject to rounding, so ordering is faithful.
- Calls into the external LLM generator are modelled as an oracle
  `calls : Nat -> LLMCall` giving the outcome of each successive
  `generateWithLLM` invocation (`fail` models both a thrown exception and an
  empty generated string).
- Random template-variant selection (std::mt19937 over a uniform index) is
  modelled by an arbitrary pick index reduced modulo the variant count.
- std::unordered_map entity maps are modelled as association lists or as
  total functions `String -> String` where the code treats "absent" and
  "empty string" identically (EntityStateManager does so in every query).
-/

namespace ConversationBot

/-! ## EntityStateManager (models/composer.cpp, lines 323-414)

The state is queried only through `getEntity` / `hasEntity` /
`getMissingEntities` / `getKnownEntities`, all of which treat an absent key
and an empty value identically, so the map is modelled as a total function
with default `""`. -/

/-- Ordered list of required entities set by the `EntityStateManager`
constructor. -/
def requiredEntities : List String :=
  ["caller_name", "phone_number", "day_preference",
   "time_preference", "service_type"]

/-- Session slot state: slot name to stored value; absent slots read as `""`. -/
abbrev EntityState := String → String

/-- Freshly constructed (or `reset`) state: every slot reads empty. -/
def emptyState : EntityState := fun _ => ""

/-- `EntityStateManager::updateEntity`: unconditional assignment
`entity_values[entity_name] = value`. -/
def updateEntity (s : EntityState) (entity_name value : String) : EntityState :=
  fun e => if e = entity_name then value else s e

/-- `EntityStateManager::getEntity`: stored value, or `""` when absent. -/
def getEntity (s : EntityState) (entity_name : String) : String :=
  s entity_name

/-- `EntityStateManager::updateMultipleEntities`: assigns every pair of the
batch (iteration order of the C++ unordered_map is immaterial to the claims
proved here; the batch is modelled as a list). -/
def updateMultipleEntities (s : EntityState) (updates : List (String × String)) :
    EntityState :=
  updates.foldl (fun st p => updateEntity st p.1 p.2) s

/-- `EntityStateManager::getMissingEntities`: required entities whose entry is
absent or empty, in required order. -/
def getMissingEntities (required : List String) (s : EntityState) : List String :=
  required.filter (fun e => getEntity s e = "")

/-- `EntityStateManager::isComplete`: no missing entities. -/
def isComplete (required : List String) (s : EntityState) : Bool :=
  (getMissingEntities required s).isEmpty

/-! ## ComposerCrew generation gate (models/composer.cpp, lines 123-247) -/

/-- `CompositionRequest` (composer.h). -/
structure CompositionRequest where
  missing_entities : List String
  known_entities : List (String × String)
  conversation_context : String
deriving DecidableEq, Repr

/-- `CompositionResult` (composer.h). -/
structure CompositionResult where
  generated_question : String
  targeted_entities : List String
  quality_score : ℚ
  is_valid : Bool
  generation_method : String
deriving DecidableEq, Repr

/-- Default-constructed `CompositionResult`. -/
def CompositionResult.init : CompositionResult :=
  { generated_question := ""
    targeted_entities := []
    quality_score := 0
    is_valid := false
    generation_method := "none" }

/-- Outcome of one call into the external LLM generator: `fail` models a
thrown exception or an empty generated string; `ok q s` models a generated
question `q` whose quality assessment returns `s`. -/
inductive LLMCall where
  | fail : LLMCall
  | ok (question : String) (quality : ℚ) : LLMCall
deriving DecidableEq, Repr

/-- `ComposerCrew::generateWithLLM`: on success fills question, method
`"llm_primary"`, quality and validity; on an exception or an empty question
the default-constructed result (invalid) is returned. -/
def generateWithLLM (c : LLMCall) : CompositionResult :=
  match c with
  | .fail => CompositionResult.init
  | .ok q s =>
      if q = "" then CompositionResult.init
      else
        { generated_question := q
          targeted_entities := []
          quality_score := s
          is_valid := true
          generation_method := "llm_primary" }

/-- `ComposerCrew::initializeTemplates`: the template table, keyed by the
entity combination string. Unknown keys have no variants. -/
def entityTemplates (key : String) : List String :=
  if key = "caller_name+phone_number" then
    ["Great! Can you please tell me your name and phone number?",
     "I'd like to get your name and contact number, please.",
     "Could you provide your name and a phone number where I can reach you?"]
  else if key = "day_preference+time_preference" then
    ["What day and time would work best for your appointment?",
     "When would you prefer to schedule this? What day and time?",
     "Could you let me know your preferred day and time?"]
  else if key = "service_type+time_preference" then
    ["What service are you looking for and what time would work for you?",
     "Which service do you need and when would you prefer to come in?",
     "What type of appointment do you need and what time works best?"]
  else if key = "caller_name" then
    ["May I have your name, please?",
     "Could you tell me your name?",
     "What name should I put this appointment under?"]
  else if key = "phone_number" then
    ["What's the best phone number to reach you at?",
     "Could I get a contact number for you?",
     "What phone number should I use for this appointment?"]
  else if key = "day_preference" then
    ["What day would work best for you?",
     "Which day would you prefer for your appointment?",
     "What day are you looking to schedule this?"]
  else if key = "time_preference" then
    ["What time would work best for you?",
     "Do you have a preferred time?",
     "What time would you like to come in?"]
  else if key = "service_type" then
    ["What service are you looking for today?",
     "Which service do you need?",
     "What type of appointment would you like to schedule?"]
  else []

/-- The `template_key` computed at the top of
`ComposerCrew::generateWithTemplate`: `"a+b"` for a two-entity request, the
entity name for a one-entity request, empty otherwise. -/
def templateKey (missing : List String) : String :=
  if missing.length = 2 then missing.getD 0 "" ++ "+" ++ missing.getD 1 ""
  else if missing.length = 1 then missing.getD 0 ""
  else ""

/-- `ComposerCrew::generateWithTemplate`: build the key from the (at most two)
missing entities, look it up, and either return a uniformly chosen variant
with quality 0.8 and method `"template"`, or the generic fallback with
quality 0.5 and method `"template_fallback"`. The random variant choice is
modelled by the index `pick` modulo the variant count. -/
def generateWithTemplate (req : CompositionRequest) (pick : ℕ) : CompositionResult :=
  if entityTemplates (templateKey req.missing_entities) = [] then
    { generated_question := "Could you please provide some additional information?"
      targeted_entities := []
      quality_score := mkRat 1 2
      is_valid := true
      generation_method := "template_fallback" }
  else
    { generated_question :=
        (entityTemplates (templateKey req.missing_entities)).getD
          (pick % (entityTemplates (templateKey req.missing_entities)).length) ""
      targeted_entities := []
      quality_score := mkRat 4 5
      is_valid := true
      generation_method := "template" }

/-- The retry loop of `ComposerCrew::composeQuestion` (lines 166-172): up to
`n` further generator calls; the first retry whose quality strictly exceeds
the current result replaces it and the loop breaks. `i` is the index of the
next oracle call. -/
def retryLoop (calls : ℕ → LLMCall) : ℕ → ℕ → CompositionResult → CompositionResult
  | 0, _, cur => cur
  | n + 1, i, cur =>
      let r := generateWithLLM (calls i)
      if cur.quality_score < r.quality_score then r
      else retryLoop calls n (i + 1) cur

/-- Lines 156-174 of `ComposerCrew::composeQuestion`: the value of `result`
after the LLM attempt (or the default-constructed result when no interface is
configured or it is unavailable), before the template-fallback check.
`hasLLM` models `llm_interface != nullptr`, `available` models
`isAvailable()`. -/
def composePrimary (hasLLM available : Bool) (calls : ℕ → LLMCall)
    (max_retries : ℕ) (quality_threshold : ℚ) : CompositionResult :=
  if hasLLM && available then
    let g := generateWithLLM (calls 0)
    if g.is_valid = true ∧ g.quality_score < quality_threshold then
      retryLoop calls max_retries 1 g
    else g
  else CompositionResult.init

/-- Lines 177-180 of `ComposerCrew::composeQuestion`: the value of `result`
after the template-fallback check, applied when the result so far is invalid
or below the quality threshold. `limited` is the truncated request. -/
def composeGate (limited : CompositionRequest) (hasLLM available : Bool)
    (calls : ℕ → LLMCall) (max_retries : ℕ) (quality_threshold : ℚ)
    (pick : ℕ) : CompositionResult :=
  if (composePrimary hasLLM available calls max_retries
        quality_threshold).is_valid = false ∨
      (composePrimary hasLLM available calls max_retries
        quality_threshold).quality_score < quality_threshold then
    generateWithTemplate limited pick
  else composePrimary hasLLM available calls max_retries quality_threshold

/-- `ComposerCrew::composeQuestion`: truncate the request to its first two
missing entities (`resize(2)`), try the LLM (with the quality-gated retry
loop) when an interface is configured and available, fall back to templates
when the result is invalid or below the quality threshold, and stamp the
targeted entities with the truncated missing-entity list. -/
def composeQuestion (req : CompositionRequest) (hasLLM available : Bool)
    (calls : ℕ → LLMCall) (max_retries : ℕ) (quality_threshold : ℚ)
    (pick : ℕ) : CompositionResult :=
  { composeGate { req with missing_entities := req.missing_entities.take 2 }
      hasLLM available calls max_retries quality_threshold pick with
    targeted_entities := req.missing_entities.take 2 }

/-- Default `quality_threshold` from the `ComposerCrew` constructor. -/
def defaultQualityThreshold : ℚ := mkRat 7 10

/-- Default `max_retries` from the `ComposerCrew` constructor. -/
def defaultMaxRetries : ℕ := 2

/-! ## Entity grouping (models/composer.cpp, lines 261-304; the identical code
is duplicated in controllers/advanced_session_controller_og.cpp, lines
373-414) -/

/-- `ComposerCrew::areEntitiesRelated` /
`AdvancedSessionController::areEntitiesRelated`: the fixed symmetric affinity
table. -/
def areEntitiesRelated (entity1 entity2 : String) : Bool :=
  [("caller_name", "phone_number"),
   ("day_preference", "time_preference"),
   ("service_type", "time_preference"),
   ("service_type", "day_preference")].any
    (fun p => (entity1 = p.1 && entity2 = p.2) || (entity1 = p.2 && entity2 = p.1))

/-- The scan of `groupMissingEntities`' inner loop: find the first element of
the pool related to `seed`; return it (if any) together with the pool with
that element removed. -/
def scanRelated (seed : String) : List String → Option String × List String
  | [] => (none, [])
  | x :: xs =>
      if areEntitiesRelated seed x then (some x, xs)
      else ((scanRelated seed xs).1, x :: (scanRelated seed xs).2)

/-- The while-loop of `ComposerCrew::groupMissingEntities`, structured on a
fuel counter to keep the definition kernel-computable: every iteration
removes at least the seed from the remaining pool, so starting the fuel at
the pool length makes the fuel-exhausted branch dead code (the pool empties
first; see `groupLoop_join_perm`, whose conclusion consumes the whole
pool). -/
def groupLoop : ℕ → List String → List (List String)
  | 0, _ => []
  | _ + 1, [] => []
  | fuel + 1, x :: rest =>
      match scanRelated x rest with
      | (some y, ys) => [x, y] :: groupLoop fuel ys
      | (none, _) => [x] :: groupLoop fuel rest

/-- `ComposerCrew::groupMissingEntities`: repeatedly take the first remaining
entity as a group seed, pair it with the first remaining entity related to it
(removing both), else emit it alone, until the pool is empty. -/
def groupMissingEntities (missing_entities : List String) : List (List String) :=
  groupLoop missing_entities.length missing_entities

/-- `AdvancedSessionController::groupEntitiesForComposition`
(controllers/advanced_session_controller_og.cpp, lines 373-395) is
character-for-character the same algorithm as
`ComposerCrew::groupMissingEntities`. -/
def groupEntitiesForComposition : List String → List (List String) :=
  groupMissingEntities

/-- `SessionController::group_entities`
(controllers/advanced_session_controller.cpp, lines 78-97): hard-coded
name+phone and day+time pairs over the short slot names; otherwise the first
one or two missing slots, regardless of affinity. Returns a single group. -/
def group_entities (empty_entities : List String) : List String :=
  if "name" ∈ empty_entities ∧ "phone" ∈ empty_entities then
    ["name", "phone"]
  else if "day" ∈ empty_entities ∧ "time" ∈ empty_entities then
    ["day", "time"]
  else
    match empty_entities with
    | [] => []
    | [a] => [a]
    | a :: b :: _ => [a, b]

/-- The affinity table of spec §4.3 stated over the short slot names used by
`SessionController` (name↔phone, day↔time, service↔day, service↔time), for
comparing `group_entities` against the specified algorithm. -/
def specAffinityShort (a b : String) : Bool :=
  [("name", "phone"), ("day", "time"),
   ("service", "day"), ("service", "time")].any
    (fun p => (a = p.1 && b = p.2) || (a = p.2 && b = p.1))

/-! ## CloserCrew (models/closer.cpp) -/

/-- The entity map of a `ClosingRequest` (`std::unordered_map` keyed by entity
name), modelled as an association list; `count` is key presence and
`operator[]` reads the stored value (defaulting to `""`). -/
abbrev EntityMap := List (String × String)

/-- `entities.count(k) != 0`. -/
def EntityMap.hasKey (m : EntityMap) (k : String) : Bool :=
  (m.find? (fun p => p.1 = k)).isSome

/-- `entities[k]` as used for reading an existing key (default `""`). -/
def EntityMap.value (m : EntityMap) (k : String) : String :=
  match m.find? (fun p => p.1 = k) with
  | some p => p.2
  | none => ""

/-- `ClosingResult` (closer.h) with its default-constructed field values. -/
structure ClosingResult where
  closing_message : String
  appointment_summary : String
  confirmation_details : String
  needs_followup : Bool
  next_steps : List String
  confidence_score : ℚ
  is_valid : Bool
  generation_method : String
deriving DecidableEq, Repr

/-- Default-constructed `ClosingResult`. -/
def ClosingResult.init : ClosingResult :=
  { closing_message := ""
    appointment_summary := ""
    confirmation_details := ""
    needs_followup := false
    next_steps := []
    confidence_score := 0
    is_valid := false
    generation_method := "none" }

/-- Characters matched by the ECMAScript regex class backslash-s. -/
def isSpaceChar (c : Char) : Bool :=
  c = ' ' || c = Char.ofNat 9 || c = Char.ofNat 10 ||
  c = Char.ofNat 11 || c = Char.ofNat 12 || c = Char.ofNat 13

/-- All characters of the list are decimal digits. -/
def allDigits (cs : List Char) : Bool := cs.all Char.isDigit

/-- First regex alternative: three digits, dash, three digits, dash, four
digits. -/
def phoneForm1 (cs : List Char) : Bool :=
  match cs with
  | [a, b, c, '-', d, e, f, '-', g, h, i, j] =>
      allDigits [a, b, c, d, e, f, g, h, i, j]
  | _ => false

/-- Tail of the second alternative after the closing parenthesis: any run of
whitespace, then three digits, dash, four digits. (The whitespace run and the
digit that follows are disjoint character classes, so maximal munch is exact.) -/
def phoneForm2Tail (cs : List Char) : Bool :=
  match cs.dropWhile isSpaceChar with
  | [d, e, f, '-', g, h, i, j] => allDigits [d, e, f, g, h, i, j]
  | _ => false

/-- Second regex alternative: parenthesised area code then
`phoneForm2Tail`. -/
def phoneForm2 (cs : List Char) : Bool :=
  match cs with
  | '(' :: a :: b :: c :: ')' :: rest =>
      allDigits [a, b, c] && phoneForm2Tail rest
  | _ => false

/-- Third regex alternative: exactly ten digits. -/
def phoneForm3 (cs : List Char) : Bool :=
  cs.length = 10 && allDigits cs

/-- `CloserCrew::isValidPhoneNumber`: full match of the regex
with the three alternatives above. -/
def isValidPhoneNumber (phone : String) : Bool :=
  phoneForm1 phone.toList || phoneForm2 phone.toList || phoneForm3 phone.toList

/-- `CloserCrew::isValidName`: non-empty and length between 2 and 50. -/
def isValidName (name : String) : Bool :=
  decide (name ≠ "") && decide (2 ≤ name.length) && decide (name.length ≤ 50)

/-- The weekday list of `CloserCrew::isValidTimeSlot`. -/
def validDays : List String :=
  ["Monday", "Tuesday", "Wednesday", "Thursday", "Friday", "Saturday", "Sunday"]

/-- `CloserCrew::isValidTimeSlot`: day is a listed weekday and time is
non-empty. -/
def isValidTimeSlot (day time : String) : Bool :=
  decide (day ∈ validDays) && decide (time ≠ "")

/-- `CloserCrew::validateAppointmentData`: all five required fields present
and non-empty, then field-specific validation of name, phone, and day/time. -/
def validateAppointmentData (entities : EntityMap) : Bool :=
  requiredEntities.all
    (fun f => entities.hasKey f && decide (entities.value f ≠ "")) &&
  isValidName (entities.value "caller_name") &&
  isValidPhoneNumber (entities.value "phone_number") &&
  isValidTimeSlot (entities.value "day_preference")
    (entities.value "time_preference")

/-- Substring test used for `time.find(pat) != npos`. -/
def strContainsSub (s pat : String) : Bool :=
  (List.range (s.length + 1)).any (fun i => (s.drop i).take pat.length = pat)

/-- `CloserCrew::needsFollowup`: true when the time preference is missing or
contains a vague word ("morning", "afternoon", "evening"). -/
def needsFollowup (entities : EntityMap) : Bool :=
  if entities.hasKey "time_preference" = false then true
  else
    let time := entities.value "time_preference"
    strContainsSub time "morning" || strContainsSub time "afternoon" ||
      strContainsSub time "evening"

/-- `CloserCrew::formatAppointmentDetails`. -/
def formatAppointmentDetails (entities : EntityMap) : String :=
  "📋 Appointment Details:\n" ++
  "   Name: " ++ entities.value "caller_name" ++ "\n" ++
  "   Phone: " ++ entities.value "phone_number" ++ "\n" ++
  "   Service: " ++ entities.value "service_type" ++ "\n" ++
  "   Day: " ++ entities.value "day_preference" ++ "\n" ++
  "   Time: " ++ entities.value "time_preference"

/-- The closing-message template table
(`CloserCrew::initializeTemplates`). -/
def closingTemplates (key : String) : List String :=
  if key = "standard" then
    ["Perfect! I have all the information I need. Let me confirm your appointment:",
     "Excellent! I've got everything we need to schedule your appointment:",
     "Great! Here's a summary of your appointment request:"]
  else if key = "needs_confirmation" then
    ["I have all the details for your appointment. Let me just confirm everything with you:",
     "Perfect! Before we finalize, let me read back your appointment details:",
     "Excellent! Here's what I have scheduled for you - please confirm:"]
  else []

/-- The confirmation template table (`CloserCrew::initializeTemplates`). -/
def confirmationTemplates (key : String) : List String :=
  if key = "standard" then
    ["Your appointment has been confirmed! You'll receive a confirmation text shortly.",
     "All set! We've confirmed your appointment and will send you a reminder.",
     "Perfect! Your appointment is confirmed. You should receive a confirmation message soon."]
  else if key = "with_followup" then
    ["Your appointment request has been received! We'll call you back within 24 hours to confirm the exact time.",
     "Thank you! We have your request and will contact you shortly to finalize the details.",
     "Got it! We'll reach out to you soon to confirm your preferred time slot."]
  else if key = "needs_callback" then
    ["Thanks for the information! Someone from our team will call you back to confirm availability.",
     "We have your details! Our scheduler will contact you to confirm your appointment time.",
     "Perfect! We'll have someone call you back to verify the appointment details."]
  else []

/-- `CloserCrew::selectClosingTemplate` (random variant modelled by
`pick`). -/
def selectClosingTemplate (entities : EntityMap) (pick : ℕ) : String :=
  let key := if needsFollowup entities then "needs_confirmation" else "standard"
  let ts := closingTemplates key
  if ts = [] then "Thank you for scheduling your appointment!"
  else ts.getD (pick % ts.length) ""

/-- `CloserCrew::selectConfirmationTemplate` (random variant modelled by
`pick`). -/
def selectConfirmationTemplate (entities : EntityMap) (pick : ℕ) : String :=
  let key := if needsFollowup entities then "with_followup" else "standard"
  let ts := confirmationTemplates key
  if ts = [] then "We'll be in touch soon!"
  else ts.getD (pick % ts.length) ""

/-- `CloserCrew::generateWithTemplate` (closing): compose the closing message
from a closing template, the formatted details, and a confirmation template;
confidence 0.85, method `"template"`. The C++ catch branch guards only
allocation failure of the string operations, none of which can fail in this
model, so it is unreachable here. Note the function does not assign
`needs_followup`, which keeps its default. -/
def generateClosingTemplate (entities : EntityMap) (pick1 pick2 : ℕ) : ClosingResult :=
  { ClosingResult.init with
    closing_message :=
      selectClosingTemplate entities pick1 ++ "\n\n" ++
      formatAppointmentDetails entities ++ "\n\n" ++
      selectConfirmationTemplate entities pick2
    confidence_score := mkRat 17 20
    is_valid := true
    generation_method := "template" }

/-- `CloserCrew::generateWithLLM`: like the composer's, with
`confidence_score` in place of `quality_score`. -/
def generateClosingLLM (c : LLMCall) : ClosingResult :=
  match c with
  | .fail => ClosingResult.init
  | .ok q s =>
      if q = "" then ClosingResult.init
      else
        { ClosingResult.init with
          closing_message := q
          confidence_score := s
          is_valid := true
          generation_method := "llm_primary" }

/-- The retry loop of `CloserCrew::generateClosing` (lines 117-123): the first
retry whose confidence strictly exceeds the current result replaces it and
the loop breaks. -/
def closerRetryLoop (calls : ℕ → LLMCall) : ℕ → ℕ → ClosingResult → ClosingResult
  | 0, _, cur => cur
  | n + 1, i, cur =>
      let r := generateClosingLLM (calls i)
      if cur.confidence_score < r.confidence_score then r
      else closerRetryLoop calls n (i + 1) cur

/-- `CloserCrew::generateConfirmationNumber`: "APT" followed by a uniformly
random six-digit number, modelled by `n`. -/
def generateConfirmationNumber (n : ℕ) : String :=
  "APT" ++ toString (100000 + n % 900000)

/-- `CloserCrew::generateNextSteps`. -/
def generateNextSteps (entities : EntityMap) : List String :=
  if needsFollowup entities then
    ["Wait for confirmation call within 24 hours",
     "Keep your phone available for our call",
     "Prepare any questions about the service"]
  else
    ["Watch for confirmation text message",
     "Arrive 10 minutes early for your appointment",
     "Bring valid ID if this is your first visit"]

/-- `CloserCrew::generateClosing` (lines 98-144): when the appointment data
fails validation, the template result is returned immediately (skipping the
block that fills `appointment_summary`, `confirmation_details`, `next_steps`
and `needs_followup`); otherwise the quality-gated LLM-with-template-fallback
policy runs and the extra fields are filled in. -/
def generateClosing (entities : EntityMap) (hasLLM available : Bool)
    (calls : ℕ → LLMCall) (max_retries : ℕ) (confidence_threshold : ℚ)
    (pick1 pick2 confNum : ℕ) : ClosingResult :=
  if validateAppointmentData entities = false then
    generateClosingTemplate entities pick1 pick2
  else
    let r1 : ClosingResult :=
      if hasLLM && available then
        let g := generateClosingLLM (calls 0)
        if g.is_valid = true ∧ g.confidence_score < confidence_threshold then
          closerRetryLoop calls max_retries 1 g
        else g
      else ClosingResult.init
    let r2 : ClosingResult :=
      if r1.is_valid = false ∨ r1.confidence_score < confidence_threshold then
        generateClosingTemplate entities pick1 pick2
      else r1
    { r2 with
      appointment_summary := formatAppointmentDetails entities
      confirmation_details := generateConfirmationNumber confNum
      next_steps := generateNextSteps entities
      needs_followup := needsFollowup entities }

/-- Default `confidence_threshold` from the `CloserCrew` constructor. -/
def defaultConfidenceThreshold : ℚ := mkRat 4 5

/-! ## AdvancedSessionController turn pipeline
(controllers/advanced_session_controller_og.cpp) -/

/-- Per-entity classification outcome as consumed by `processInput`. -/
structure ClassOutcome where
  entity_name : String
  detected : Bool
deriving DecidableEq, Repr

/-- Per-entity extraction outcome as consumed by `processInput`. -/
structure ExtOutcome where
  entity_name : String
  extracted_value : String
  found : Bool
deriving DecidableEq, Repr

/-- The trigger flags and final session state of one `processInput` turn. -/
structure TurnTriggers where
  composition_triggered : Bool
  closing_triggered : Bool
  finalState : EntityState

/-- The control flow of `AdvancedSessionController::processInput` (lines
126-271) restricted to its sequential, state-relevant effects.
`classification` is the outcome of `classifyAllEntities` on the utterance;
`extraction` is the outcome of `extractWithFallback` on the detected
entities (the extraction future is only created when some entity was
detected). Phase 2 sets `should_compose` from the utterance's undetected
entities and the session's completeness; phase 3 applies every found
extraction to the session; phase 4 marks `composition_triggered` when
composition ran. In phase 5 the entire block that would run the closer and
set `closing_triggered = true` sits inside a `/* ... */` comment (lines
238-247, "Note: Closer is commented out in constructor"), so
`closing_triggered` keeps its `false` initializer on every path. -/
def processInput (classification : List ClassOutcome)
    (extraction : List ExtOutcome) (state : EntityState) : TurnTriggers :=
  let missing_entities :=
    (classification.filter (fun c => c.detected = false)).map (·.entity_name)
  let detected_entities :=
    (classification.filter (fun c => c.detected = true)).map (·.entity_name)
  let should_compose :=
    !missing_entities.isEmpty && !isComplete requiredEntities state
  let state' :=
    if detected_entities.isEmpty then state
    else
      (extraction.filter (fun r => r.found = true)).foldl
        (fun st r => updateEntity st r.entity_name r.extracted_value) state
  { composition_triggered := should_compose
    closing_triggered := false
    finalState := state' }

/-- `AdvancedSessionController::optimizeThreadAllocation`: the
`composition_threads` figure chosen from the core count (2 on systems with at
least 8 cores, else 1). -/
def optimizeCompositionThreads (total_cpu_cores : ℕ) : ℕ :=
  if 8 ≤ total_cpu_cores then 2 else 1

/-- `ComposerCrew::adjustThreadCount`: sets the worker count to `new_count`
whenever it differs from the current count (so the resulting count is always
`new_count`). -/
def adjustThreadCount (current new_count : ℕ) : ℕ :=
  if new_count ≠ current then new_count else current

/-- `AdvancedSessionController::adjustPerformanceBasedOnLoad` (lines 358-370):
the resulting composer worker count. When the active load exceeds the core
count the pool is set to `composition_threads - 1`; when it is below half the
core count (integer division) it is set to `composition_threads + 1`;
otherwise it is left unchanged. `composition_threads` is the fixed configured
figure, never itself updated. -/
def adjustPerformanceBasedOnLoad (current_load total_cpu_cores
    composition_threads pool : ℕ) : ℕ :=
  if total_cpu_cores < current_load then
    adjustThreadCount pool (composition_threads - 1)
  else if current_load < total_cpu_cores / 2 then
    adjustThreadCount pool (composition_threads + 1)
  else pool

/-! ## Session registry (controllers/SessionController.h,
controllers/advanced_session_controller.cpp, lines 14-54) -/

/-- `ConfigModel` (SessionController.h): eight string slots, all empty by
default. -/
structure ConfigModel where
  name : String
  phone : String
  email : String
  service : String
  day : String
  time : String
  stylist : String
  notes : String
deriving DecidableEq, Repr

/-- Default-constructed `ConfigModel` (all fields empty). -/
def ConfigModel.initConfig : ConfigModel :=
  { name := "", phone := "", email := "", service := ""
    day := "", time := "", stylist := "", notes := "" }

/-- `ConfigModel::get_empty_entities`. -/
def ConfigModel.get_empty_entities (c : ConfigModel) : List String :=
  (if c.name = "" then ["name"] else []) ++
  (if c.phone = "" then ["phone"] else []) ++
  (if c.email = "" then ["email"] else []) ++
  (if c.service = "" then ["service"] else []) ++
  (if c.day = "" then ["day"] else []) ++
  (if c.time = "" then ["time"] else []) ++
  (if c.stylist = "" then ["stylist"] else []) ++
  (if c.notes = "" then ["notes"] else [])

/-- The `sessions_` registry of the refactored `EntityStateManager`, modelled
as an association list from session id to `ConfigModel`. -/
abbrev SessionRegistry := List (String × ConfigModel)

/-- `EntityStateManager::get_session`
(advanced_session_controller.cpp, lines 20-27): the stored model when the id
is found, else a default-constructed (all-empty) `ConfigModel`. -/
def get_session (sessions : SessionRegistry) (session_id : String) : ConfigModel :=
  match sessions.find? (fun p => p.1 = session_id) with
  | some p => p.2
  | none => ConfigModel.initConfig

/-! ## Helper lemmas -/

theorem isComplete_true_iff (required : List String) (s : EntityState) :
    isComplete required s = true ↔ ∀ e ∈ required, s e ≠ "" := by
  simp [isComplete, getMissingEntities, getEntity, List.isEmpty_iff,
    List.filter_eq_nil_iff]

/-! ## Claim C2 -/

/-- Claim C2, refuted at a concrete input: after storing `"John"` under
`caller_name`, applying an update that maps `caller_name` to the empty string
leaves the stored value empty rather than unchanged — both through
`updateEntity` and through `updateMultipleEntities` the assignment
`entity_values[name] = value` is unconditional. -/
theorem c2_counterexample :
    getEntity (updateEntity emptyState "caller_name" "John") "caller_name"
      = "John" ∧
    getEntity (updateEntity (updateEntity emptyState "caller_name" "John")
      "caller_name" "") "caller_name" = "" ∧
    getEntity (updateMultipleEntities
      (updateEntity emptyState "caller_name" "John")
      [("caller_name", "")]) "caller_name" = "" := by
  refine ⟨rfl, rfl, rfl⟩

/-- Claim C2 amended: an empty value does not mean "no update" — both
`EntityStateManager::updateEntity` and
`EntityStateManager::updateMultipleEntities` assign unconditionally, so an
update mapping a slot to the empty string always overwrites (clears) that
slot's stored value. -/
theorem c2_amended (s : EntityState) (slot : String) :
    getEntity (updateEntity s slot "") slot = "" ∧
    getEntity (updateMultipleEntities s [(slot, "")]) slot = "" := by
  constructor <;>
    simp [getEntity, updateEntity, updateMultipleEntities]

/-! ## Claim C6 -/

/-- Claim C6, confirmed: once `isComplete` holds (no required slot absent or
empty), applying any batch of updates whose values are all non-empty (the
batch subsumes any sequence of `updateEntity` calls, since
`updateMultipleEntities` folds `updateEntity` over the batch) leaves
`isComplete` true. -/
theorem c6_theorem (required : List String) (s : EntityState)
    (updates : List (String × String))
    (hc : isComplete required s = true)
    (hne : ∀ p ∈ updates, p.2 ≠ "") :
    isComplete required (updateMultipleEntities s updates) = true := by
  induction updates generalizing s with
  | nil => exact hc
  | cons u rest ih =>
      have hstep : isComplete required (updateEntity s u.1 u.2) = true := by
        rw [isComplete_true_iff] at hc ⊢
        intro e he
        by_cases h : e = u.1
        · simpa [updateEntity, h] using hne u (by simp)
        · simpa [updateEntity, h] using hc e he
      have hrest : ∀ p ∈ rest, p.2 ≠ "" := fun p hp => hne p (by simp [hp])
      exact ih (updateEntity s u.1 u.2) hstep hrest

/-- Witness for C6 at a fully-known session and one non-empty update. -/
theorem c6_witness :
    isComplete requiredEntities
      (updateMultipleEntities (fun _ => "v") [("caller_name", "Jane")]) = true :=
  c6_theorem requiredEntities (fun _ => "v") [("caller_name", "Jane")]
    (by decide) (by decide)

/-! ## Claim C9 -/

/-- Claim C9, confirmed: `composeQuestion` truncates the request to its first
two missing entities before generating (generation and the returned
`targeted_entities` only ever see the truncated request), so
`targeted_entities` is always the first two missing entities and has length
at most 2. -/
theorem c9_theorem (req : CompositionRequest) (hasLLM available : Bool)
    (calls : ℕ → LLMCall) (max_retries : ℕ) (quality_threshold : ℚ)
    (pick : ℕ) (_hlong : 2 < req.missing_entities.length) :
    composeQuestion req hasLLM available calls max_retries quality_threshold
        pick =
      composeQuestion { req with missing_entities := req.missing_entities.take 2 }
        hasLLM available calls max_retries quality_threshold pick ∧
    (composeQuestion req hasLLM available calls max_retries quality_threshold
        pick).targeted_entities = req.missing_entities.take 2 ∧
    (composeQuestion req hasLLM available calls max_retries quality_threshold
        pick).targeted_entities.length ≤ 2 := by
  refine ⟨?_, rfl, ?_⟩
  · unfold composeQuestion
    simp [List.take_take]
  · show (req.missing_entities.take 2).length ≤ 2
    simp [List.length_take]

/-- Witness for C9 at a three-entity request with the generator absent. -/
theorem c9_witness :
    (composeQuestion
        ⟨["caller_name", "phone_number", "service_type"], [], ""⟩
        false false (fun _ => LLMCall.fail) 2 (7/10) 0).targeted_entities =
      ["caller_name", "phone_number"] ∧
    (composeQuestion
        ⟨["caller_name", "phone_number", "service_type"], [], ""⟩
        false false (fun _ => LLMCall.fail) 2 (7/10) 0).targeted_entities.length ≤ 2 := by
  have h := c9_theorem
    ⟨["caller_name", "phone_number", "service_type"], [], ""⟩
    false false (fun _ => LLMCall.fail) 2 (7/10) 0 (by decide)
  exact ⟨h.2.1, h.2.2⟩

/-! ## Claim C10 -/

/-- Claim C10, confirmed: for a session id matching no registry entry,
`EntityStateManager::get_session` returns a default-constructed `ConfigModel`
(every slot empty, so `get_empty_entities` lists all eight slots) rather than
signalling an error, and the result is identical to looking up an existing
session whose model is default-constructed. -/
theorem c10_theorem (sessions : SessionRegistry) (session_id : String)
    (habs : ∀ p ∈ sessions, p.1 ≠ session_id) :
    get_session sessions session_id = ConfigModel.initConfig ∧
    (get_session sessions session_id).get_empty_entities =
      ["name", "phone", "email", "service", "day", "time", "stylist", "notes"] ∧
    get_session sessions session_id =
      get_session [(session_id, ConfigModel.initConfig)] session_id := by
  have hfind : sessions.find? (fun p => p.1 = session_id) = none := by
    rw [List.find?_eq_none]
    intro p hp
    simpa using habs p hp
  refine ⟨?_, ?_, ?_⟩ <;> simp [get_session, hfind, ConfigModel.initConfig,
    ConfigModel.get_empty_entities]

/-- Witness for C10 at a registry holding only session `"s1"`, queried for
`"s2"`. -/
theorem c10_witness :
    get_session [("s1", ConfigModel.initConfig)] "s2" =
      ConfigModel.initConfig ∧
    (get_session [("s1", ConfigModel.initConfig)] "s2").get_empty_entities =
      ["name", "phone", "email", "service", "day", "time", "stylist", "notes"] := by
  have h := c10_theorem [("s1", ConfigModel.initConfig)] "s2" (by decide)
  exact ⟨h.1, h.2.1⟩

/-! ## Claim C8 -/

theorem adjustThreadCount_eq (current new_count : ℕ) :
    adjustThreadCount current new_count = new_count := by
  unfold adjustThreadCount
  split
  · rfl
  · omega

/-- Claim C8, refuted at a concrete input: on a 4-core system the configured
composition thread count is 1, and a turn completing while 5 turns are active
(5 > 4 cores) sets the composition pool to `1 - 1 = 0` — below the floor of 1
the claim asserts, because `adjustPerformanceBasedOnLoad` passes
`composition_threads - 1` to `adjustThreadCount` with no clamp. -/
theorem c8_counterexample :
    optimizeCompositionThreads 4 = 1 ∧
    adjustPerformanceBasedOnLoad 5 4 (optimizeCompositionThreads 4) 1 = 0 ∧
    adjustPerformanceBasedOnLoad 5 4 (optimizeCompositionThreads 4) 1 < 1 := by
  decide

/-- Claim C8 amended: after a turn completes, if the active-turn count
exceeds the total core count the composition pool is set to the configured
composition thread count minus one, with no floor — on a system configured
with a single composition thread this sets the pool to zero; if the count is
below half the core count (integer division) the pool is set to the
configured count plus one; otherwise it is unchanged. The configured count
itself is never updated, so the new size is relative to the configuration,
not to the current pool. -/
theorem c8_amended (current_load total_cpu_cores composition_threads pool : ℕ) :
    (total_cpu_cores < current_load →
      adjustPerformanceBasedOnLoad current_load total_cpu_cores
        composition_threads pool = composition_threads - 1) ∧
    (¬ total_cpu_cores < current_load → current_load < total_cpu_cores / 2 →
      adjustPerformanceBasedOnLoad current_load total_cpu_cores
        composition_threads pool = composition_threads + 1) ∧
    (¬ total_cpu_cores < current_load → ¬ current_load < total_cpu_cores / 2 →
      adjustPerformanceBasedOnLoad current_load total_cpu_cores
        composition_threads pool = pool) := by
  refine ⟨fun h1 => ?_, fun h1 h2 => ?_, fun h1 h2 => ?_⟩
  · simp [adjustPerformanceBasedOnLoad, adjustThreadCount_eq, h1]
  · simp [adjustPerformanceBasedOnLoad, adjustThreadCount_eq, h1, h2]
  · simp [adjustPerformanceBasedOnLoad, adjustThreadCount_eq, h1, h2]

/-- Witness for C8 amended: all three branches at a 4-core system configured
with one composition thread. -/
theorem c8_amended_witness :
    adjustPerformanceBasedOnLoad 5 4 1 1 = 0 ∧
    adjustPerformanceBasedOnLoad 1 4 1 1 = 2 ∧
    adjustPerformanceBasedOnLoad 3 4 1 1 = 1 :=
  ⟨(c8_amended 5 4 1 1).1 (by decide),
   (c8_amended 1 4 1 1).2.1 (by decide) (by decide),
   (c8_amended 3 4 1 1).2.2 (by decide) (by decide)⟩

/-! ## Claim C5 -/

theorem scanRelated_length_le (seed : String) (l : List String) :
    (scanRelated seed l).2.length ≤ l.length := by
  induction l with
  | nil => simp [scanRelated]
  | cons x xs ih =>
      simp only [scanRelated]
      split
      · exact Nat.le_succ _
      · simp only [List.length_cons]
        exact Nat.succ_le_succ ih

theorem scanRelated_some (seed : String) (l : List String) (y : String)
    (ys : List String) (h : scanRelated seed l = (some y, ys)) :
    areEntitiesRelated seed y = true ∧ l.Perm (y :: ys) := by
  induction l generalizing ys with
  | nil => simp [scanRelated] at h
  | cons x xs ih =>
      simp only [scanRelated] at h
      by_cases hrel : areEntitiesRelated seed x = true
      · rw [if_pos hrel] at h
        obtain ⟨hy, hys⟩ := Prod.mk.injEq .. ▸ h
        injection hy with hy
        subst hy; subst hys
        exact ⟨hrel, List.Perm.refl _⟩
      · rw [if_neg hrel] at h
        obtain ⟨h1, h2⟩ := Prod.mk.injEq .. ▸ h
        have hxs : scanRelated seed xs = (some y, (scanRelated seed xs).2) := by
          rw [← h1]
        obtain ⟨hr, hperm⟩ := ih (scanRelated seed xs).2 hxs
        refine ⟨hr, ?_⟩
        subst h2
        exact (hperm.cons x).trans (List.Perm.swap y x _)

theorem scanRelated_none (seed : String) (l : List String)
    (h : (scanRelated seed l).1 = none) : (scanRelated seed l).2 = l := by
  induction l with
  | nil => simp [scanRelated]
  | cons x xs ih =>
      simp only [scanRelated] at h ⊢
      by_cases hrel : areEntitiesRelated seed x = true
      · rw [if_pos hrel] at h
        simp at h
      · rw [if_neg hrel] at h ⊢
        simp only [List.cons.injEq, true_and]
        exact ih h

theorem groupLoop_groups (fuel : ℕ) :
    ∀ l : List String, l.length ≤ fuel → ∀ g ∈ groupLoop fuel l,
      (g.length = 1 ∨ g.length = 2) ∧
      ∀ a b, g = [a, b] → areEntitiesRelated a b = true := by
  induction fuel with
  | zero =>
      intro l _ g hg
      simp [groupLoop] at hg
  | succ fuel ih =>
      intro l hlen g hg
      cases l with
      | nil => simp [groupLoop] at hg
      | cons x rest =>
          simp only [List.length_cons] at hlen
          rw [groupLoop] at hg
          cases hsc : scanRelated x rest with
          | mk o ys =>
              rw [hsc] at hg
              cases o with
              | some y =>
                  have hg' : g ∈ ([x, y] :: groupLoop fuel ys) := hg
                  rcases List.mem_cons.mp hg' with hgx | hgx
                  · subst hgx
                    refine ⟨Or.inr rfl, fun a b hab => ?_⟩
                    have ha : x = a := (List.cons.injEq .. ▸ hab).1
                    have hb : y = b :=
                      (List.cons.injEq .. ▸ (List.cons.injEq .. ▸ hab).2).1
                    rw [← ha, ← hb]
                    exact (scanRelated_some x rest y ys hsc).1
                  · have h1 := scanRelated_length_le x rest
                    rw [hsc] at h1
                    have h1' : ys.length ≤ rest.length := h1
                    exact ih ys (by omega) g hgx
              | none =>
                  have hg' : g ∈ ([x] :: groupLoop fuel rest) := hg
                  rcases List.mem_cons.mp hg' with hgx | hgx
                  · subst hgx
                    exact ⟨Or.inl rfl, fun a b hab => by simp at hab⟩
                  · exact ih rest (by omega) g hgx

theorem groupLoop_join_perm (fuel : ℕ) :
    ∀ l : List String, l.length ≤ fuel → (groupLoop fuel l).flatten.Perm l := by
  induction fuel with
  | zero =>
      intro l hlen
      have : l = [] := List.length_eq_zero.mp (Nat.le_zero.mp hlen)
      subst this
      simp [groupLoop]
  | succ fuel ih =>
      intro l hlen
      cases l with
      | nil => simp [groupLoop]
      | cons x rest =>
          simp only [List.length_cons] at hlen
          rw [groupLoop]
          cases hsc : scanRelated x rest with
          | mk o ys =>
              cases o with
              | some y =>
                  show (([x, y] :: groupLoop fuel ys).flatten).Perm (x :: rest)
                  have h1 := scanRelated_length_le x rest
                  rw [hsc] at h1
                  have h1' : ys.length ≤ rest.length := h1
                  have hperm := (scanRelated_some x rest y ys hsc).2
                  have hih := ih ys (by omega)
                  show (x :: y :: (groupLoop fuel ys).flatten).Perm (x :: rest)
                  exact (((hih.cons y).cons x).trans (hperm.cons x).symm)
              | none =>
                  show (([x] :: groupLoop fuel rest).flatten).Perm (x :: rest)
                  show (x :: (groupLoop fuel rest).flatten).Perm (x :: rest)
                  exact ((ih rest (by omega)).cons x)

/-- Claim C5, refuted at a concrete input: `SessionController::group_entities`
— one of the three grouping implementations the claim covers — given the
missing slots `["name", "day"]` pairs them into one group although name and
day are unrelated in the affinity table, because its final branch pairs the
first two missing slots unconditionally. -/
theorem c5_counterexample :
    group_entities ["name", "day"] = ["name", "day"] ∧
    specAffinityShort "name" "day" = false := by
  decide

/-- Claim C5 amended: the seed-scan grouping of the claim holds for
`ComposerCrew::groupMissingEntities` and its verbatim duplicate
`AdvancedSessionController::groupEntitiesForComposition` — every emitted
group has exactly 1 or 2 slots, a 2-slot group is always related by the
affinity table, and the groups consume exactly the missing-slot pool (as a
permutation, pairs being pulled forward) — but
`SessionController::group_entities` instead returns a single group of at most
two slots and, outside its hard-coded name+phone and day+time cases, pairs
the first two missing slots even when they are unrelated. -/
theorem c5_amended (missing : List String) :
    (∀ g ∈ groupMissingEntities missing,
      (g.length = 1 ∨ g.length = 2) ∧
      ∀ a b, g = [a, b] → areEntitiesRelated a b = true) ∧
    (groupMissingEntities missing).flatten.Perm missing ∧
    groupEntitiesForComposition missing = groupMissingEntities missing ∧
    (group_entities missing).length ≤ 2 := by
  refine ⟨groupLoop_groups missing.length missing (Nat.le_refl _),
    groupLoop_join_perm missing.length missing (Nat.le_refl _), rfl, ?_⟩
  unfold group_entities
  split
  · simp
  · split
    · simp
    · match missing with
      | [] => simp
      | [a] => simp
      | a :: b :: rest => simp

/-- Witness for C5 amended: concrete pairing facts obtained from the theorem
at the full missing-slot list. -/
theorem c5_witness :
    areEntitiesRelated "caller_name" "phone_number" = true ∧
    (groupMissingEntities requiredEntities).flatten.Perm requiredEntities := by
  have h := c5_amended requiredEntities
  refine ⟨?_, h.2.1⟩
  exact (h.1 ["caller_name", "phone_number"] (by decide)).2
    "caller_name" "phone_number" rfl

/-! ## Claim C1 -/

theorem generateWithTemplate_valid (req : CompositionRequest) (pick : ℕ) :
    (generateWithTemplate req pick).is_valid = true ∧
    ((generateWithTemplate req pick).generation_method = "template" ∨
     (generateWithTemplate req pick).generation_method = "template_fallback") := by
  unfold generateWithTemplate
  split
  · exact ⟨rfl, Or.inr rfl⟩
  · exact ⟨rfl, Or.inl rfl⟩

theorem retryLoop_pres (calls : ℕ → LLMCall) (P : CompositionResult → Prop)
    (hall : ∀ i, P (generateWithLLM (calls i))) :
    ∀ (n i : ℕ) (cur : CompositionResult), P cur → P (retryLoop calls n i cur) := by
  intro n
  induction n with
  | zero => intro i cur h; exact h
  | succ n ih =>
      intro i cur h
      rw [retryLoop]
      split
      · exact hall i
      · exact ih (i + 1) cur h

theorem composePrimary_fail (hasLLM available : Bool) (calls : ℕ → LLMCall)
    (max_retries : ℕ) (thr : ℚ)
    (hfail : hasLLM = false ∨ available = false ∨
      ∀ i, (generateWithLLM (calls i)).is_valid = false ∨
        (generateWithLLM (calls i)).quality_score < thr) :
    (composePrimary hasLLM available calls max_retries thr).is_valid = false ∨
    (composePrimary hasLLM available calls max_retries thr).quality_score < thr := by
  unfold composePrimary
  rcases hfail with h | h | h
  · subst h
    simp [CompositionResult.init]
  · subst h
    simp [CompositionResult.init]
  · by_cases hb : (hasLLM && available) = true
    · rw [if_pos hb]
      by_cases hg : (generateWithLLM (calls 0)).is_valid = true ∧
          (generateWithLLM (calls 0)).quality_score < thr
      · rw [if_pos hg]
        exact retryLoop_pres calls
          (fun r => r.is_valid = false ∨ r.quality_score < thr) h
          max_retries 1 (generateWithLLM (calls 0)) (h 0)
      · rw [if_neg hg]
        exact h 0
    · rw [if_neg hb]
      simp [CompositionResult.init]

/-- Claim C1, confirmed: when the primary generator is absent or unavailable,
or every generator call fails or yields an invalid or below-threshold result,
`composeQuestion` returns a valid result whose method is `"template"` or
`"template_fallback"`; and unconditionally (last conjunct) `composeQuestion`
never returns an invalid result. -/
theorem c1_theorem (req : CompositionRequest) (hasLLM available : Bool)
    (calls : ℕ → LLMCall) (max_retries : ℕ) (thr : ℚ) (pick : ℕ)
    (hfail : hasLLM = false ∨ available = false ∨
      ∀ i, (generateWithLLM (calls i)).is_valid = false ∨
        (generateWithLLM (calls i)).quality_score < thr) :
    (composeQuestion req hasLLM available calls max_retries thr pick).is_valid
      = true ∧
    ((composeQuestion req hasLLM available calls max_retries thr
        pick).generation_method = "template" ∨
     (composeQuestion req hasLLM available calls max_retries thr
        pick).generation_method = "template_fallback") ∧
    ∀ (hL av : Bool),
      (composeQuestion req hL av calls max_retries thr pick).is_valid = true := by
  have hio := composePrimary_fail hasLLM available calls max_retries thr hfail
  have htempl := generateWithTemplate_valid
    { req with missing_entities := req.missing_entities.take 2 } pick
  refine ⟨?_, ?_, ?_⟩
  · unfold composeQuestion composeGate
    rw [if_pos hio]
    exact htempl.1
  · unfold composeQuestion composeGate
    rw [if_pos hio]
    exact htempl.2
  · intro hL av
    unfold composeQuestion composeGate
    split
    · exact htempl.1
    · next hcond =>
        push_neg at hcond
        show (composePrimary hL av calls max_retries thr).is_valid = true
        rcases Bool.eq_false_or_eq_true
          (composePrimary hL av calls max_retries thr).is_valid with ht | hf
        · exact ht
        · exact absurd hf hcond.1

/-- Witness for C1: a generator that always answers with quality 0.5, below
the default threshold 0.7. -/
theorem c1_witness :
    (composeQuestion ⟨["caller_name"], [], ""⟩ true true
        (fun _ => LLMCall.ok "q" (1/2)) 2 (7/10) 0).is_valid = true ∧
    ((composeQuestion ⟨["caller_name"], [], ""⟩ true true
        (fun _ => LLMCall.ok "q" (1/2)) 2 (7/10) 0).generation_method
        = "template" ∨
     (composeQuestion ⟨["caller_name"], [], ""⟩ true true
        (fun _ => LLMCall.ok "q" (1/2)) 2 (7/10) 0).generation_method
        = "template_fallback") := by
  have h := c1_theorem ⟨["caller_name"], [], ""⟩ true true
    (fun _ => LLMCall.ok "q" (1/2)) 2 (7/10) 0
    (Or.inr (Or.inr (fun _ => Or.inr
      (show (generateWithLLM (LLMCall.ok "q" (1/2))).quality_score < 7/10 by
        simp only [generateWithLLM]
        rw [if_neg (by decide : ¬("q" = ""))]
        norm_num))))
  exact ⟨h.1, h.2.1⟩

/-! ## Claim C3 -/

theorem generateWithLLM_method (c : LLMCall) :
    (generateWithLLM c).generation_method = "llm_primary" ∨
    (generateWithLLM c).is_valid = false := by
  cases c with
  | fail => exact Or.inr rfl
  | ok q s =>
      by_cases h : q = ""
      · simp [generateWithLLM, h, CompositionResult.init]
      · simp [generateWithLLM, h]

/-- The generator oracle of the C3 counterexample: first outcome valid with
quality 0.30, first retry 0.40, second retry 0.90. -/
def c3calls : ℕ → LLMCall :=
  fun i =>
    if i = 0 then LLMCall.ok "a" (mkRat 3 10)
    else if i = 1 then LLMCall.ok "b" (mkRat 4 10)
    else LLMCall.ok "c" (mkRat 9 10)

/-- Claim C3, refuted at a concrete input: with the default quality threshold
0.7 and max_retries = 2, a valid first outcome of quality 0.30 followed by
retries of quality 0.40 and 0.90: the best quality seen across all retries
(0.90) reaches the threshold, so the claim requires the gate to return it
with method `"primary_retry"`; the code instead keeps the first improving
retry (0.40) and breaks out of the loop without running the second retry,
then falls through to the template fallback — the result has method
`"template"` and quality 0.8, not the claimed best retry. -/
theorem c3_counterexample :
    (generateWithLLM (c3calls 0)).is_valid = true ∧
    (generateWithLLM (c3calls 0)).quality_score < defaultQualityThreshold ∧
    defaultQualityThreshold ≤ (generateWithLLM (c3calls 2)).quality_score ∧
    (composeQuestion ⟨["caller_name"], [], ""⟩ true true c3calls
      defaultMaxRetries defaultQualityThreshold 0).generation_method
      = "template" ∧
    (composeQuestion ⟨["caller_name"], [], ""⟩ true true c3calls
      defaultMaxRetries defaultQualityThreshold 0).quality_score
      = mkRat 4 5 := by
  decide

/-- Claim C3 amended: when the primary generator's first outcome is valid but
below the quality threshold, the gate runs the retry loop, which replaces the
current result with the *first* retry whose quality strictly exceeds the
first outcome's and stops there (later, possibly better, retries are never
examined); the gate then returns that kept result exactly when it is valid
and its quality reaches the threshold — with its method still
`"llm_primary"`, as no `"primary_retry"` method exists in the code — and
otherwise falls through to the template fallback. -/
theorem c3_amended (calls : ℕ → LLMCall) (n : ℕ) (req : CompositionRequest)
    (thr : ℚ) (pick : ℕ)
    (h0 : (generateWithLLM (calls 0)).is_valid = true)
    (h1 : (generateWithLLM (calls 0)).quality_score < thr) :
    composeQuestion req true true calls n thr pick =
      (if (retryLoop calls n 1 (generateWithLLM (calls 0))).is_valid = false ∨
          (retryLoop calls n 1 (generateWithLLM (calls 0))).quality_score < thr
       then
        { generateWithTemplate
            { req with missing_entities := req.missing_entities.take 2 } pick with
          targeted_entities := req.missing_entities.take 2 }
       else
        { retryLoop calls n 1 (generateWithLLM (calls 0)) with
          targeted_entities := req.missing_entities.take 2 }) ∧
    ((retryLoop calls n 1 (generateWithLLM (calls 0))).generation_method
        = "llm_primary" ∨
     (retryLoop calls n 1 (generateWithLLM (calls 0))).is_valid = false) ∧
    (composeQuestion req true true calls n thr pick).generation_method ∈
      (["llm_primary", "template", "template_fallback"] : List String) := by
  have e1 : composePrimary true true calls n thr =
      retryLoop calls n 1 (generateWithLLM (calls 0)) := by
    unfold composePrimary
    rw [if_pos (by rfl : (true && true) = true), if_pos ⟨h0, h1⟩]
  have e2 : composeQuestion req true true calls n thr pick =
      (if (retryLoop calls n 1 (generateWithLLM (calls 0))).is_valid = false ∨
          (retryLoop calls n 1 (generateWithLLM (calls 0))).quality_score < thr
       then
        { generateWithTemplate
            { req with missing_entities := req.missing_entities.take 2 } pick with
          targeted_entities := req.missing_entities.take 2 }
       else
        { retryLoop calls n 1 (generateWithLLM (calls 0)) with
          targeted_entities := req.missing_entities.take 2 }) := by
    unfold composeQuestion composeGate
    rw [e1]
    split
    · rfl
    · rfl
  have hkept : (retryLoop calls n 1 (generateWithLLM (calls 0))).generation_method
        = "llm_primary" ∨
      (retryLoop calls n 1 (generateWithLLM (calls 0))).is_valid = false := by
    refine retryLoop_pres calls
      (fun r => r.generation_method = "llm_primary" ∨ r.is_valid = false)
      (fun i => generateWithLLM_method (calls i)) n 1 _ ?_
    exact generateWithLLM_method (calls 0)
  refine ⟨e2, hkept, ?_⟩
  rw [e2]
  split
  · next hcond =>
      rcases (generateWithTemplate_valid
          { req with missing_entities := req.missing_entities.take 2 } pick).2
        with hm | hm
      · show (generateWithTemplate _ pick).generation_method ∈ _
        rw [hm]; simp
      · show (generateWithTemplate _ pick).generation_method ∈ _
        rw [hm]; simp
  · next hcond =>
      push_neg at hcond
      rcases hkept with hm | hf
      · show (retryLoop calls n 1 (generateWithLLM (calls 0))).generation_method ∈ _
        rw [hm]; simp
      · exact absurd hf hcond.1

/-- Witness for C3 amended at the counterexample oracle. -/
theorem c3_amended_witness :
    (composeQuestion ⟨["caller_name"], [], ""⟩ true true c3calls 2
      (mkRat 7 10) 0).generation_method ∈
      (["llm_primary", "template", "template_fallback"] : List String) :=
  (c3_amended c3calls 2 ⟨["caller_name"], [], ""⟩ (mkRat 7 10) 0
    (by decide) (by decide)).2.2

/-! ## Claim C7 -/

/-- Appointment data whose phone number is malformed (fails the phone regex)
while every field is present and non-empty, the name is well-formed, and the
day/time slot is valid. -/
def c7entities : EntityMap :=
  [("caller_name", "John"), ("phone_number", "abc"),
   ("day_preference", "Monday"), ("time_preference", "3pm"),
   ("service_type", "Haircut")]

/-- Claim C7, refuted at a concrete input: for appointment data with a
malformed phone number, `generateClosing` does return a template-generated
closing (valid, method `"template"`) and raises nothing — but it returns
early, skipping the block that assigns `needs_followup`, so the returned
record has `needs_followup = false` (the default), not `true` as the claim
states. -/
theorem c7_counterexample :
    validateAppointmentData c7entities = false ∧
    (generateClosing c7entities true true (fun _ => LLMCall.fail) 2
      defaultConfidenceThreshold 0 0 0).is_valid = true ∧
    (generateClosing c7entities true true (fun _ => LLMCall.fail) 2
      defaultConfidenceThreshold 0 0 0).generation_method = "template" ∧
    (generateClosing c7entities true true (fun _ => LLMCall.fail) 2
      defaultConfidenceThreshold 0 0 0).needs_followup = false := by
  decide

/-- Claim C7 amended: for every closing request whose appointment data fails
validation, `generateClosing` recovers locally by returning exactly the
template-generated closing (is_valid = true, method `"template"`) and never
raises — but the early return skips the post-processing assignments, so the
returned record keeps `needs_followup = false` (its default) regardless of
the request, and its appointment summary, confirmation details and next
steps are likewise left at their defaults. -/
theorem c7_amended (entities : EntityMap) (hasLLM available : Bool)
    (calls : ℕ → LLMCall) (max_retries : ℕ) (thr : ℚ)
    (pick1 pick2 confNum : ℕ)
    (hinvalid : validateAppointmentData entities = false) :
    generateClosing entities hasLLM available calls max_retries thr
        pick1 pick2 confNum = generateClosingTemplate entities pick1 pick2 ∧
    (generateClosing entities hasLLM available calls max_retries thr
        pick1 pick2 confNum).is_valid = true ∧
    (generateClosing entities hasLLM available calls max_retries thr
        pick1 pick2 confNum).generation_method = "template" ∧
    (generateClosing entities hasLLM available calls max_retries thr
        pick1 pick2 confNum).needs_followup = false ∧
    (generateClosing entities hasLLM available calls max_retries thr
        pick1 pick2 confNum).next_steps = [] := by
  have e : generateClosing entities hasLLM available calls max_retries thr
      pick1 pick2 confNum = generateClosingTemplate entities pick1 pick2 := by
    unfold generateClosing
    rw [if_pos hinvalid]
  refine ⟨e, ?_, ?_, ?_, ?_⟩ <;> rw [e] <;> rfl

/-- Witness for C7 amended at the malformed-phone request. -/
theorem c7_witness :
    generateClosing c7entities false false (fun _ => LLMCall.fail) 2
        defaultConfidenceThreshold 1 2 3 =
      generateClosingTemplate c7entities 1 2 ∧
    (generateClosing c7entities false false (fun _ => LLMCall.fail) 2
        defaultConfidenceThreshold 1 2 3).needs_followup = false := by
  have h := c7_amended c7entities false false (fun _ => LLMCall.fail) 2
    defaultConfidenceThreshold 1 2 3 (by decide)
  exact ⟨h.1, h.2.2.2.1⟩

/-! ## Claim C4 -/

/-- Classification outcome of an utterance in which no entity is detected. -/
def c4classification : List ClassOutcome :=
  [⟨"caller_name", false⟩, ⟨"phone_number", false⟩, ⟨"day_preference", false⟩,
   ⟨"time_preference", false⟩, ⟨"service_type", false⟩]

/-- A session state in which all five required slots are known. -/
def c4state : EntityState := fun _ => "v"

/-- Claim C4 evaluated on the code: with all 5 required slots already known,
a processed turn triggers no composition (`composition_triggered = false`, as
the claim states) — but it also never triggers closing:
`closing_triggered = false` on every turn whatsoever (first conjunct),
because the entire block of `processInput` that would run the closer and set
`closing_triggered = true` is commented out in the source (lines 238-247 of
controllers/advanced_session_controller_og.cpp), contradicting both the spec
and the file's own architecture notes, which describe an active closing
phase. -/
theorem c4_code_behavior :
    (∀ (classification : List ClassOutcome) (extraction : List ExtOutcome)
        (state : EntityState),
      (processInput classification extraction state).closing_triggered
        = false) ∧
    isComplete requiredEntities c4state = true ∧
    (processInput c4classification [] c4state).composition_triggered = false ∧
    (processInput c4classification [] c4state).closing_triggered = false := by
  refine ⟨fun _ _ _ => rfl, by decide, by decide, rfl⟩

end ConversationBot
